import Mathlib

/-!
Verification of the mastodon-checker repository against its specification.

The repository contains two JavaScript entry points:
* `src/unnamed/part_000` — the multi-instance variant: a bare username fans out
  across all configured instances and the results are aggregated;
* `src/mastodon-age-checker.js` — the single-instance variant: the handle must
  be of the form `username@instance` and exactly one instance is queried.

Both are embedded below.  JavaScript timestamps (`Date` values) are modelled as
`Int` milliseconds since the epoch; `Date`-string parsing and the
locale-dependent `toLocaleDateString` are abstracted as parameters of the
environment `Env` (the code only pipes them through).  JavaScript `Math.floor`
of a real division of integers is `Int.fdiv`, and the JavaScript `%` operator
(remainder with the sign of the dividend) is `Int.tmod`.
-/

namespace MastodonChecker

/-- Milliseconds per day, written as in the source: `1000 * 60 * 60 * 24`. -/
def msPerDay : Int := 1000 * 60 * 60 * 24

/-- Function `calculateAccountAge` (src/unnamed/part_000 lines 14-22, identical in
src/mastodon-age-checker.js lines 13-21):
`diffDays = Math.floor((now - created) / 86400000)`,
`years = Math.floor(diffDays / 365)`, `months = Math.floor((diffDays % 365) / 30)`,
returning `"<years> years, <months> months"` when `years > 0` and
`"<months> months"` otherwise (template-literal concatenation). -/
def calculateAccountAge (nowMs createdMs : Int) : String :=
  let diffDays := (nowMs - createdMs).fdiv msPerDay
  let years := diffDays.fdiv 365
  let months := (diffDays.tmod 365).fdiv 30
  if years > 0 then
    toString years ++ " years, " ++ toString months ++ " months"
  else
    toString months ++ " months"

/-- Function `calculateAgeDays` (src/unnamed/part_000 lines 25-30, identical in
src/mastodon-age-checker.js lines 24-29): floor of the millisecond difference
divided by the milliseconds of a day. -/
def calculateAgeDays (nowMs createdMs : Int) : Int :=
  (nowMs - createdMs).fdiv msPerDay

lemma toString_int_ofNat (m : Nat) : toString (Int.ofNat m) = toString m := rfl

lemma fdiv_ofNat (m n : Nat) : (Int.ofNat m).fdiv (Int.ofNat n) = Int.ofNat (m / n) := by
  cases m with
  | zero => simp [Int.fdiv]
  | succ m => rfl

lemma tmod_ofNat (m n : Nat) : (Int.ofNat m).tmod (Int.ofNat n) = Int.ofNat (m % n) := rfl

/-- Claim C1: if the whole-day difference between `now` and `created` is the
natural number `d`, then `calculateAccountAge` renders
`"<d/365> years, <(d%365)/30> months"` when `d/365 > 0` and
`"<(d%365)/30> months"` otherwise (Nat division, i.e. floor). -/
theorem c1_account_age_format (nowMs createdMs : Int) (d : Nat)
    (hd : calculateAgeDays nowMs createdMs = (d : Int)) :
    calculateAccountAge nowMs createdMs =
      (if 0 < d / 365 then
        toString (d / 365) ++ " years, " ++ toString (d % 365 / 30) ++ " months"
      else
        toString (d % 365 / 30) ++ " months") := by
  unfold calculateAccountAge
  unfold calculateAgeDays at hd
  rw [hd]
  have h365 : ((d : Int)).tmod 365 = Int.ofNat (d % 365) := tmod_ofNat d 365
  have hyears : ((d : Int)).fdiv 365 = Int.ofNat (d / 365) := fdiv_ofNat d 365
  have hmonths : (Int.ofNat (d % 365)).fdiv 30 = Int.ofNat (d % 365 / 30) :=
    fdiv_ofNat (d % 365) 30
  simp only [h365, hyears, hmonths, toString_int_ofNat]
  by_cases hy : 0 < d / 365
  · rw [if_pos, if_pos hy]
    exact Int.ofNat_pos.mpr hy
  · rw [if_neg, if_neg hy]
    exact fun hc => hy (Int.ofNat_pos.mp hc)

/-- Witness for C1 at the claim's own example: a creation timestamp exactly
400 days before "now" yields the string `"1 years, 1 months"`. -/
theorem c1_account_age_format_witness :
    calculateAgeDays 34560000000 0 = (400 : Int) ∧
      calculateAccountAge 34560000000 0 = "1 years, 1 months" := by
  refine ⟨by decide, ?_⟩
  rw [c1_account_age_format 34560000000 0 400 (by decide)]
  decide

/-- Claim C7: for a fixed `created` timestamp, `calculateAgeDays` is monotone
non-decreasing as "now" advances. -/
theorem c7_age_days_monotone (createdMs now1 now2 : Int) (h : now1 ≤ now2) :
    calculateAgeDays now1 createdMs ≤ calculateAgeDays now2 createdMs := by
  unfold calculateAgeDays
  have hpos : (0 : Int) < msPerDay := by decide
  rw [Int.fdiv_eq_ediv _ (le_of_lt hpos), Int.fdiv_eq_ediv _ (le_of_lt hpos)]
  exact Int.ediv_le_ediv hpos (Int.sub_le_sub_right h createdMs)

/-- Witness for C7 at concrete timestamps. -/
theorem c7_age_days_monotone_witness :
    calculateAgeDays 100000000000 0 ≤ calculateAgeDays 200000000000 0 :=
  c7_age_days_monotone 0 100000000000 200000000000 (by decide)

/-!
## Handle validation

`src/unnamed/part_000` line 105 validates with the regular expression
`^[a-zA-Z0-9_]{3,30}(@[a-zA-Z0-9.-]+\.[a-zA-Z]{2,})?$`;
`src/mastodon-age-checker.js` line 71 uses
`^[a-zA-Z0-9_]{3,30}@[a-zA-Z0-9.-]+\.[a-zA-Z]{2,}$` (the `@domain` part is
mandatory there).  The regexes are embedded by their semantics: a character
class is a predicate, `{3,30}` and `{2,}` are length bounds, `+` is
"non-empty and all members of the class", concatenation is an existential
split of the anchored string, and `(...)?` is a disjunction.
-/

/-- The character class `[a-zA-Z0-9_]`. -/
def isUserChar (c : Char) : Bool := c.isAlphanum || c == '_'

/-- The character class `[a-zA-Z0-9.-]`. -/
def isDomainChar (c : Char) : Bool := c.isAlphanum || c == '.' || c == '-'

/-- Pattern `[a-zA-Z0-9_]{3,30}` matched against a whole string. -/
def validUsernameL (cs : List Char) : Bool :=
  decide (3 ≤ cs.length) && decide (cs.length ≤ 30) && cs.all isUserChar

/-- Pattern `[a-zA-Z0-9.-]+` matched against a whole string. -/
def plusDomainChars (p : List Char) : Bool :=
  !p.isEmpty && p.all isDomainChar

/-- Pattern `[a-zA-Z]{2,}` matched against a whole string. -/
def tldMatch (t : List Char) : Bool :=
  decide (2 ≤ t.length) && t.all Char.isAlpha

/-- Pattern `[a-zA-Z0-9.-]+\.[a-zA-Z]{2,}` matched against a whole string: some
position `i` holds the literal dot, everything before it matches
`[a-zA-Z0-9.-]+` and everything after it matches `[a-zA-Z]{2,}`. -/
def domainMatchL (cs : List Char) : Bool :=
  (List.range cs.length).any fun i =>
    (cs[i]? == some '.') && plusDomainChars (cs.take i) && tldMatch (cs.drop (i + 1))

/-- Pattern `[a-zA-Z0-9_]{3,30}@[a-zA-Z0-9.-]+\.[a-zA-Z]{2,}` matched against a whole
string (the mandatory-domain regex of src/mastodon-age-checker.js line 71). -/
def handleTailMatchL (cs : List Char) : Bool :=
  (List.range cs.length).any fun i =>
    (cs[i]? == some '@') && validUsernameL (cs.take i) && domainMatchL (cs.drop (i + 1))

/-- The optional-domain regex of src/unnamed/part_000 line 105. -/
def handleMatchL (cs : List Char) : Bool :=
  validUsernameL cs || handleTailMatchL cs

/-- Validation used by the multi-instance variant (src/unnamed/part_000). -/
def handleMatch (s : String) : Bool := handleMatchL s.data

/-- Validation used by the single-instance variant (src/mastodon-age-checker.js). -/
def handleMatchV2 (s : String) : Bool := handleTailMatchL s.data

/-- Specification-side reading of `[a-zA-Z0-9_]{3,30}`: 3 to 30 characters,
all letters, digits or underscore. -/
def UsernameOk (u : List Char) : Prop :=
  3 ≤ u.length ∧ u.length ≤ 30 ∧ ∀ c ∈ u, isUserChar c = true

/-- Specification-side reading of the domain pattern: a non-empty block of
domain characters, a literal dot, and a letters-only TLD of length at
least 2. -/
def DomainOk (d : List Char) : Prop :=
  ∃ p t, d = p ++ '.' :: t ∧ p ≠ [] ∧ (∀ c ∈ p, isDomainChar c = true) ∧
    2 ≤ t.length ∧ ∀ c ∈ t, c.isAlpha = true

/-- Specification-side reading of the full-handle form `username@domain`. -/
def FullHandleOk (cs : List Char) : Prop :=
  ∃ u d, cs = u ++ '@' :: d ∧ UsernameOk u ∧ DomainOk d

/-- Specification-side reading of the optional-domain handle pattern. -/
def HandleOk (cs : List Char) : Prop :=
  UsernameOk cs ∨ FullHandleOk cs

lemma split_char_any_iff (cs : List Char) (ch : Char) (f g : List Char → Bool) :
    ((List.range cs.length).any fun i =>
        (cs[i]? == some ch) && f (cs.take i) && g (cs.drop (i + 1))) = true ↔
      ∃ u d, cs = u ++ ch :: d ∧ f u = true ∧ g d = true := by
  rw [List.any_eq_true]
  constructor
  · rintro ⟨i, hi, hcond⟩
    rw [List.mem_range] at hi
    rw [Bool.and_eq_true, Bool.and_eq_true, beq_iff_eq] at hcond
    obtain ⟨⟨hgetq, hf⟩, hg⟩ := hcond
    rw [List.getElem?_eq_some_iff] at hgetq
    obtain ⟨hlt, hget⟩ := hgetq
    refine ⟨cs.take i, cs.drop (i + 1), ?_, hf, hg⟩
    conv_lhs => rw [← List.take_append_drop i cs]
    rw [List.drop_eq_getElem_cons hlt, hget]
  · rintro ⟨u, d, rfl, hf, hg⟩
    refine ⟨u.length, ?_, ?_⟩
    · rw [List.mem_range, List.length_append, List.length_cons]
      omega
    · rw [Bool.and_eq_true, Bool.and_eq_true, beq_iff_eq]
      refine ⟨⟨?_, ?_⟩, ?_⟩
      · rw [List.getElem?_append_right (Nat.le_refl u.length), Nat.sub_self]
        simp
      · rw [List.take_left]
        exact hf
      · rw [show u ++ ch :: d = (u ++ [ch]) ++ d by simp,
          List.drop_left' (by simp)]
        exact hg

lemma validUsernameL_iff (u : List Char) : validUsernameL u = true ↔ UsernameOk u := by
  simp [validUsernameL, UsernameOk, List.all_eq_true, and_assoc]

lemma domainMatchL_iff (d : List Char) : domainMatchL d = true ↔ DomainOk d := by
  rw [domainMatchL, split_char_any_iff]
  constructor
  · rintro ⟨p, t, rfl, hp, ht⟩
    rw [plusDomainChars, Bool.and_eq_true] at hp
    rw [tldMatch, Bool.and_eq_true] at ht
    refine ⟨p, t, rfl, ?_, ?_, ?_, ?_⟩
    · simpa [List.isEmpty_iff] using hp.1
    · simpa [List.all_eq_true] using hp.2
    · simpa using ht.1
    · simpa [List.all_eq_true] using ht.2
  · rintro ⟨p, t, rfl, hp0, hpc, ht2, hta⟩
    refine ⟨p, t, rfl, ?_, ?_⟩
    · rw [plusDomainChars, Bool.and_eq_true]
      exact ⟨by simpa [List.isEmpty_iff] using hp0, by simpa [List.all_eq_true] using hpc⟩
    · rw [tldMatch, Bool.and_eq_true]
      exact ⟨by simpa using ht2, by simpa [List.all_eq_true] using hta⟩

lemma handleTailMatchL_iff (cs : List Char) :
    handleTailMatchL cs = true ↔ FullHandleOk cs := by
  rw [handleTailMatchL, split_char_any_iff]
  constructor
  · rintro ⟨u, d, rfl, hu, hd⟩
    exact ⟨u, d, rfl, (validUsernameL_iff u).mp hu, (domainMatchL_iff d).mp hd⟩
  · rintro ⟨u, d, rfl, hu, hd⟩
    exact ⟨u, d, rfl, (validUsernameL_iff u).mpr hu, (domainMatchL_iff d).mpr hd⟩

lemma handleMatchL_iff (cs : List Char) : handleMatchL cs = true ↔ HandleOk cs := by
  rw [handleMatchL, Bool.or_eq_true, validUsernameL_iff, handleTailMatchL_iff]
  exact Iff.rfl

/-!
## Profile data and the formatter

`RawProfile` is the upstream account record, restricted to the fields the code
reads.  JavaScript string falsiness (`undefined`/`null`/`""`) in the fallbacks
`display_name || username`, `avatar_static || avatar || ...` and
`url || ...` is modelled by the empty string.  `created_at` is the parsed
`Date` value of the ISO 8601 timestamp, in epoch milliseconds.
-/

structure RawProfile where
  id : String
  username : String
  display_name : String
  created_at : Int
  followers_count : Int
  statuses_count : Int
  bot : Bool
  locked : Bool
  note : String
  avatar : String
  avatar_static : String
  url : String
deriving Repr, DecidableEq

/-- Request-independent environment: the clock reading taken by `new Date()`
and the locale-dependent `toLocaleDateString` rendering, both abstracted. -/
structure Env where
  nowMs : Int
  fmtDate : Int → String

/-- One step of the global replace of `/<[^>]*>/g` by the empty string
(src/unnamed/part_000 line 44 and src/mastodon-age-checker.js line 95).
A match starts at a `<` and extends to the first following `>`; if no `>`
follows, the regex cannot match at that `<` (nor anywhere later, since
`[^>]*>` needs a `>`), so the text is kept.  The scanner state is `none`
outside any candidate match and `some buf` inside one, where `buf` holds the
characters consumed since the opening `<` in reverse order; they are emitted
if the end of input arrives before a closing `>`. -/
def stripAux : Option (List Char) → List Char → List Char
  | none, [] => []
  | some buf, [] => buf.reverse
  | none, c :: rest =>
    if c = '<' then stripAux (some [c]) rest else c :: stripAux none rest
  | some buf, c :: rest =>
    if c = '>' then stripAux none rest else stripAux (some (c :: buf)) rest

/-- Computes `note.replace(/<[^>]*>/g, '')` on a whole string. -/
def stripTags (s : String) : String := ⟨stripAux none s.data⟩

/-- Function `processProfileData` (src/unnamed/part_000 lines 33-53; the response
object literal of src/mastodon-age-checker.js lines 86-102 builds the same
fields except `instance_used`). -/
structure FormattedProfile where
  username : String
  nickname : String
  estimated_creation_date : String
  account_age : String
  age_days : Int
  followers : String
  total_posts : String
  verified : String
  description : String
  region : String
  user_id : String
  avatar : String
  estimation_confidence : String
  accuracy_range : String
  profile_link : String
  instance_used : String
deriving Repr, DecidableEq

def processProfileData (env : Env) (profile : RawProfile) (instanceUsed : String) :
    FormattedProfile :=
  let avatarUrl :=
    if profile.avatar_static ≠ "" then profile.avatar_static
    else if profile.avatar ≠ "" then profile.avatar
    else "https://" ++ instanceUsed ++ "/avatars/original/missing.png"
  { username := profile.username
    nickname := if profile.display_name ≠ "" then profile.display_name else profile.username
    estimated_creation_date := env.fmtDate profile.created_at
    account_age := calculateAccountAge env.nowMs profile.created_at
    age_days := calculateAgeDays env.nowMs profile.created_at
    followers := toString profile.followers_count
    total_posts := toString profile.statuses_count
    verified := if profile.bot then "Bot Account"
      else if profile.locked then "Protected" else "Standard"
    description := stripTags profile.note
    region := "N/A"
    user_id := profile.id
    avatar := avatarUrl
    estimation_confidence := "High (exact server timestamp)"
    accuracy_range := "Second-level (ISO 8601 timestamp)"
    profile_link := if profile.url ≠ "" then profile.url
      else "https://" ++ instanceUsed ++ "/@" ++ profile.username
    instance_used := instanceUsed }

/-- The spread `{...processProfileData(r.data, r.instanceUsed),
estimation_confidence: 'Medium (multiple instances found)'}` of
src/unnamed/part_000 lines 129-132. -/
def mediumize (env : Env) (pi : RawProfile × String) : FormattedProfile :=
  { processProfileData env pi.1 pi.2 with
    estimation_confidence := "Medium (multiple instances found)" }

/-!
## Network model and instance client

An axios call either resolves with a parsed body (`NetResult.ok`) or rejects
with an error object (`NetResult.err`).  The error's `response` field is
present for non-2xx HTTP responses (carrying the upstream status and body) and
absent for transport failures and timeouts.  The network itself is an oracle
mapping `(username, instance)` to an outcome; outbound calls are logged
explicitly so that "no network call is issued" is a statement about the log.
-/

structure AxiosErrResponse where
  status : Nat
  data : String
deriving Repr, DecidableEq

structure AxiosError where
  response : Option AxiosErrResponse
  message : String
deriving Repr, DecidableEq

inductive NetResult where
  | ok (profile : RawProfile)
  | err (e : AxiosError)
deriving Repr, DecidableEq

/-- The network oracle: what `axios.get` on
`https://<instance>/api/v1/accounts/lookup?acct=<username>` would produce. -/
def Net : Type := String → String → NetResult

/-- Type `LookupResult`: `{data, instanceUsed}` on success, `{error, instanceUsed}`
on failure (src/unnamed/part_000 lines 63 and 65). -/
inductive LookupResult where
  | success (data : RawProfile) (instanceUsed : String)
  | failure (error : AxiosError) (instanceUsed : String)
deriving Repr, DecidableEq

/-- The instance tag carried by a `LookupResult`. -/
def lookupInstance : LookupResult → String
  | LookupResult.success _ i => i
  | LookupResult.failure _ i => i

/-- Function `fetchFromInstance` (src/unnamed/part_000 lines 56-67): the try/catch
turns any rejection into the error half of the result, tagged with the
instance; nothing escapes. -/
def fetchFromInstance (net : Net) (username inst : String) : LookupResult :=
  match net username inst with
  | NetResult.ok p => LookupResult.success p inst
  | NetResult.err e => LookupResult.failure e inst

/-- JavaScript `String.prototype.split` with a single-character separator,
on character lists.  `"".split(sep)` is `[""]`, and separators at the ends
produce empty fields, as in JavaScript. -/
def splitOnCharL (sep : Char) : List Char → List (List Char)
  | [] => [[]]
  | c :: rest =>
    let r := splitOnCharL sep rest
    if c = sep then [] :: r
    else (c :: r.headD []) :: r.tail

/-- Computes `handle.split(sep)` as a list of strings. -/
def jsSplit (sep : Char) (s : String) : List String :=
  (splitOnCharL sep s.data).map fun l => ⟨l⟩

/-- The filter `result.data && result.data.id` of src/unnamed/part_000
line 82: keep a result when it is the success half and its profile has a
non-empty (truthy) `id`, projecting out the profile and the instance. -/
def hasData : LookupResult → Option (RawProfile × String)
  | LookupResult.success p i => if p.id ≠ "" then some (p, i) else none
  | LookupResult.failure _ _ => none

/-- Result of `getMastodonProfile` in src/unnamed/part_000: a single
passthrough result for a full handle, the non-empty success list for a bare
username, or the thrown aggregate error when no instance matched. -/
inductive ProfileResult where
  | single (r : LookupResult)
  | multi (successes : List (RawProfile × String))
  | aggError (msg : String)
deriving Repr, DecidableEq

/-- Function `getMastodonProfile` (src/unnamed/part_000 lines 70-90) paired with the
list of outbound calls it issues. -/
def getMastodonProfile (net : Net) (instances : List String) (handle : String) :
    ProfileResult × List (String × String) :=
  let parts := jsSplit '@' handle
  let username := parts.headD ""
  if handle.data.contains '@' then
    let inst := (parts.drop 1).headD ""
    (ProfileResult.single (fetchFromInstance net username inst), [(username, inst)])
  else
    let results := instances.map (fetchFromInstance net username)
    let successes := results.filterMap hasData
    let calls := instances.map fun i => (username, i)
    if successes.length = 0 then
      (ProfileResult.aggError ("No account found for " ++ username ++
        " on instances: " ++ String.intercalate ", " instances), calls)
    else
      (ProfileResult.multi successes, calls)

/-- The success response object of src/mastodon-age-checker.js lines 86-102:
the same fields as `FormattedProfile` except that no `instance_used` field is
included. -/
structure FormattedProfileV2 where
  username : String
  nickname : String
  estimated_creation_date : String
  account_age : String
  age_days : Int
  followers : String
  total_posts : String
  verified : String
  description : String
  region : String
  user_id : String
  avatar : String
  estimation_confidence : String
  accuracy_range : String
  profile_link : String
deriving Repr, DecidableEq

/-- Builds the response object of src/mastodon-age-checker.js lines 86-102;
`inst` is `handle.split('@')[1]`. -/
def processProfileDataV2 (env : Env) (profile : RawProfile) (inst : String) :
    FormattedProfileV2 :=
  let avatarUrl :=
    if profile.avatar_static ≠ "" then profile.avatar_static
    else if profile.avatar ≠ "" then profile.avatar
    else "https://" ++ inst ++ "/avatars/original/missing.png"
  { username := profile.username
    nickname := if profile.display_name ≠ "" then profile.display_name else profile.username
    estimated_creation_date := env.fmtDate profile.created_at
    account_age := calculateAccountAge env.nowMs profile.created_at
    age_days := calculateAgeDays env.nowMs profile.created_at
    followers := toString profile.followers_count
    total_posts := toString profile.statuses_count
    verified := if profile.bot then "Bot Account"
      else if profile.locked then "Protected" else "Standard"
    description := stripTags profile.note
    region := "N/A"
    user_id := profile.id
    avatar := avatarUrl
    estimation_confidence := "High (exact server timestamp)"
    accuracy_range := "Second-level (ISO 8601 timestamp)"
    profile_link := if profile.url ≠ "" then profile.url
      else "https://" ++ inst ++ "/@" ++ profile.username }

/-- JSON bodies the two endpoints can produce: `{error}`, `{error, details}`,
a single formatted profile (either variant), or `{users, note}`. -/
inductive ResponseBody where
  | errorMsg (error : String)
  | errorDetails (error : String) (details : String)
  | profile (p : FormattedProfile)
  | profileV2 (p : FormattedProfileV2)
  | multiUsers (users : List FormattedProfile) (note : String)
deriving Repr, DecidableEq

structure HttpResponse where
  status : Nat
  body : ResponseBody
deriving Repr, DecidableEq

/-- The validation error body of src/unnamed/part_000 lines 107-109. -/
def invalidHandleMsg (instances : List String) : String :=
  "Invalid Mastodon handle format. Use username (3-30 chars, letters/numbers/underscores) or username@instance.social. Searched instances: " ++
    String.intercalate ", " instances ++ "."

/-- Endpoint `GET /api/mastodon/:handle` of the multi-instance variant
(src/unnamed/part_000 lines 98-152), as a function from the network oracle,
environment, configured instances and handle to the HTTP response and the
list of outbound calls issued. -/
def apiMastodonHandler (net : Net) (env : Env) (instances : List String)
    (handle : String) : HttpResponse × List (String × String) :=
  if handleMatch handle = false then
    (⟨400, ResponseBody.errorMsg (invalidHandleMsg instances)⟩, [])
  else
    match getMastodonProfile net instances handle with
    | (ProfileResult.single (LookupResult.failure e _), calls) =>
      let inst := if handle.data.contains '@'
        then ((jsSplit '@' handle).drop 1).headD ""
        else instances.headD ""
      (⟨(e.response.map AxiosErrResponse.status).getD 404,
        ResponseBody.errorMsg ("Mastodon account " ++ handle ++
          " not found, suspended, or instance " ++ inst ++ " unavailable")⟩, calls)
    | (ProfileResult.single (LookupResult.success p iu), calls) =>
      (⟨200, ResponseBody.profile (processProfileData env p iu)⟩, calls)
    | (ProfileResult.multi successes, calls) =>
      if 1 < successes.length then
        (⟨200, ResponseBody.multiUsers (successes.map (mediumize env))
          ("Multiple accounts found for " ++ (jsSplit '@' handle).headD "" ++
            ". Use instance_used or profile_link to select the correct account.")⟩,
         calls)
      else
        match successes with
        | pi :: _ =>
          (⟨200, ResponseBody.profile (processProfileData env pi.1 pi.2)⟩, calls)
        | [] =>
          -- Unreachable: `getMastodonProfile` only builds `multi` from a
          -- non-empty success list.  In JavaScript, `result[0].data` would
          -- throw here and land in the generic catch (status 500).
          (⟨500, ResponseBody.errorDetails "Failed to fetch Mastodon data"
            ("Searched instances: " ++ String.intercalate ", " instances)⟩, calls)
    | (ProfileResult.aggError msg, calls) =>
      (⟨500, ResponseBody.errorDetails msg
        ("Searched instances: " ++ String.intercalate ", " instances)⟩, calls)

/-- Endpoint `GET /api/mastodon/:handle` of the single-instance variant
(src/mastodon-age-checker.js lines 64-118) together with the outbound calls.
Its `getMastodonProfile` (lines 32-56) defaults a bare handle to
`@mastodon.social`, issues one lookup and rethrows failures; the endpoint
maps an upstream 404/403 to a 404, any other failure to the upstream status
when available (500 otherwise) with detail passthrough, and an `ok` body
whose `id` is missing to a 404. -/
def apiMastodonHandlerV2 (net : Net) (env : Env) (handle : String) :
    HttpResponse × List (String × String) :=
  if handleMatchV2 handle = false then
    (⟨400, ResponseBody.errorMsg "Invalid Mastodon handle format. Use username@instance.social (3-30 chars username, valid domain)."⟩, [])
  else
    let handle2 := if handle.data.contains '@' then handle
      else handle ++ "@mastodon.social"
    let parts := jsSplit '@' handle2
    let username := parts.headD ""
    let inst := (parts.drop 1).headD ""
    match net username inst with
    | NetResult.err e =>
      if e.response.map AxiosErrResponse.status = some 404 ∨
          e.response.map AxiosErrResponse.status = some 403 then
        (⟨404, ResponseBody.errorMsg ("Mastodon account " ++ handle ++
          " not found, suspended, or instance unavailable")⟩, [(username, inst)])
      else
        (⟨(e.response.map AxiosErrResponse.status).getD 500,
          ResponseBody.errorDetails e.message
            ((e.response.map AxiosErrResponse.data).getD "No additional details")⟩,
         [(username, inst)])
    | NetResult.ok p =>
      if p.id = "" then
        (⟨404, ResponseBody.errorMsg ("Mastodon account " ++ handle ++
          " not found or suspended")⟩, [(username, inst)])
      else
        (⟨200, ResponseBody.profileV2
          (processProfileDataV2 env p (((jsSplit '@' handle).drop 1).headD ""))⟩,
         [(username, inst)])

/-!
## Concrete fixtures

Used by counterexamples and witnesses: the default instance list of
src/unnamed/part_000 line 8, a fixed clock, and a few network oracles.
-/

def instances0 : List String := ["mastodon.social", "fosstodon.org", "mstdn.social"]

def env0 : Env := { nowMs := 1760000000000, fmtDate := fun _ => "3/16/2016" }

def errTimeout : AxiosError := { response := none, message := "timeout of 5000ms exceeded" }

def err403 : AxiosError :=
  { response := some { status := 403, data := "suspended" },
    message := "Request failed with status code 403" }

def err502 : AxiosError :=
  { response := some { status := 502, data := "bad gateway" },
    message := "Request failed with status code 502" }

def netTimeout : Net := fun _ _ => NetResult.err errTimeout

def net403 : Net := fun _ _ => NetResult.err err403

def net502 : Net := fun _ _ => NetResult.err err502

def gargron : RawProfile :=
  { id := "1", username := "gargron", display_name := "Eugen Rochko",
    created_at := 1458000000000, followers_count := 500000, statuses_count := 74000,
    bot := false, locked := false, note := "<p>Founder of Mastodon</p>",
    avatar := "", avatar_static := "", url := "https://mastodon.social/@Gargron" }

def gargron2 : RawProfile :=
  { gargron with id := "42", url := "" }

/-- Oracle with matches on two of the three configured instances. -/
def netTwo : Net := fun _ inst =>
  if inst = "mastodon.social" then NetResult.ok gargron
  else if inst = "fosstodon.org" then NetResult.ok gargron2
  else NetResult.err errTimeout

/-- Oracle with a match on exactly one configured instance. -/
def netOne : Net := fun _ inst =>
  if inst = "mastodon.social" then NetResult.ok gargron
  else NetResult.err errTimeout

/-!
## Claim C2
-/

lemma splitOnCharL_of_not_contains {sep : Char} {l : List Char}
    (h : l.contains sep = false) : splitOnCharL sep l = [l] := by
  induction l with
  | nil => rfl
  | cons c rest ih =>
    rw [List.contains_cons, Bool.or_eq_false_iff] at h
    have hcs : ¬c = sep := fun hc => by
      rw [hc] at h
      simp at h
    rw [splitOnCharL, ih h.2, if_neg hcs]
    rfl

lemma jsSplit_of_not_contains (s : String) (h : s.data.contains '@' = false) :
    jsSplit '@' s = [s] := by
  rw [jsSplit, splitOnCharL_of_not_contains h]
  rfl

/-- Claim C2, amended: a username-only lookup with zero successes across all
configured instances is reported through the generic catch handler: the thrown
aggregate error becomes an HTTP **500** (not 404) whose `error` message names
the username and lists every configured instance hostname, with a `details`
line repeating the instance list. -/
theorem c2_zero_successes_aggregate_500 (net : Net) (env : Env)
    (instances : List String) (handle : String)
    (hv : handleMatch handle = true)
    (hat : handle.data.contains '@' = false)
    (hzero : ((instances.map (fetchFromInstance net handle)).filterMap hasData).length = 0) :
    apiMastodonHandler net env instances handle =
      (⟨500, ResponseBody.errorDetails
          ("No account found for " ++ handle ++ " on instances: " ++
            String.intercalate ", " instances)
          ("Searched instances: " ++ String.intercalate ", " instances)⟩,
       instances.map fun i => (handle, i)) := by
  have hsplit := jsSplit_of_not_contains handle hat
  rw [apiMastodonHandler, if_neg (by simp [hv])]
  rw [getMastodonProfile]
  simp only [hsplit, List.headD_cons, hat, Bool.false_eq_true, if_false, hzero]
  simp

/-- Witness for C2 (amended): all three default instances time out. -/
theorem c2_zero_successes_aggregate_500_witness :
    apiMastodonHandler netTimeout env0 instances0 "gargron" =
      (⟨500, ResponseBody.errorDetails
          ("No account found for " ++ "gargron" ++ " on instances: " ++
            String.intercalate ", " instances0)
          ("Searched instances: " ++ String.intercalate ", " instances0)⟩,
       instances0.map fun i => ("gargron", i)) :=
  c2_zero_successes_aggregate_500 netTimeout env0 instances0 "gargron"
    (by decide) (by decide) (by decide)

/-- Claim C2, counterexample: with every configured instance failing, the
multi-instance service answers the bare-username lookup `gargron` with
status 500, not the 404 the claim states. -/
theorem c2_counterexample :
    (apiMastodonHandler netTimeout env0 instances0 "gargron").1.status = 500 ∧
      (apiMastodonHandler netTimeout env0 instances0 "gargron").1.status ≠ 404 := by
  decide

/-!
## Claim C3
-/

/-- Claim C3, amended: the multi-instance variant accepts a handle exactly when
it is a 3-30 character username of letters/digits/underscore, optionally
followed by `@` and a domain of `[A-Za-z0-9.-]` characters with a dot and a
letters-only TLD of length at least 2; the single-instance variant accepts
exactly the full `username@domain` form (the domain part is mandatory there).
In both variants a non-matching handle is answered with HTTP 400 and no
outbound network call is issued. -/
theorem c3_validation_amended (net : Net) (env : Env) (instances : List String)
    (s : String) :
    (handleMatch s = true ↔ HandleOk s.data) ∧
    (handleMatchV2 s = true ↔ FullHandleOk s.data) ∧
    (handleMatch s = false →
      apiMastodonHandler net env instances s =
        (⟨400, ResponseBody.errorMsg (invalidHandleMsg instances)⟩, [])) ∧
    (handleMatchV2 s = false →
      apiMastodonHandlerV2 net env s =
        (⟨400, ResponseBody.errorMsg "Invalid Mastodon handle format. Use username@instance.social (3-30 chars username, valid domain)."⟩, [])) := by
  refine ⟨handleMatchL_iff s.data, handleTailMatchL_iff s.data, ?_, ?_⟩
  · intro h
    rw [apiMastodonHandler, if_pos h]
  · intro h
    rw [apiMastodonHandlerV2, if_pos h]

/-- Witness for C3 (amended): the malformed handle `ab` (too short) is
rejected by both variants with HTTP 400 and an empty call log. -/
theorem c3_validation_amended_witness :
    apiMastodonHandler netTimeout env0 instances0 "ab" =
      (⟨400, ResponseBody.errorMsg (invalidHandleMsg instances0)⟩, []) ∧
    apiMastodonHandlerV2 netTimeout env0 "ab" =
      (⟨400, ResponseBody.errorMsg "Invalid Mastodon handle format. Use username@instance.social (3-30 chars username, valid domain)."⟩, []) :=
  ⟨(c3_validation_amended netTimeout env0 instances0 "ab").2.2.1 (by decide),
   (c3_validation_amended netTimeout env0 instances0 "ab").2.2.2 (by decide)⟩

/-- Claim C3, counterexample: the bare username `gargron` matches the claim's
pattern (domain optional), yet the single-instance variant's endpoint rejects
it with HTTP 400: the acceptance-iff of the claim fails on
src/mastodon-age-checker.js, whose regex makes `@domain` mandatory. -/
theorem c3_counterexample :
    handleMatch "gargron" = true ∧
      apiMastodonHandlerV2 netTimeout env0 "gargron" =
        (⟨400, ResponseBody.errorMsg "Invalid Mastodon handle format. Use username@instance.social (3-30 chars username, valid domain)."⟩, []) := by
  decide

/-!
## Claim C4
-/

/-- Claim C4: the fan-out maps each configured instance to exactly one result
(the tag list of the results is the instance list itself, so there are exactly
N results correlated positionally), and the instance client turns every
network-level rejection into the error half of a `LookupResult` tagged with
the instance, and every resolution into the success half; nothing is thrown
past `fetchFromInstance`. -/
theorem c4_fanout_results (net : Net) (username : String) (instances : List String) :
    ((instances.map (fetchFromInstance net username)).map lookupInstance = instances) ∧
    (∀ inst e, net username inst = NetResult.err e →
      fetchFromInstance net username inst = LookupResult.failure e inst) ∧
    (∀ inst p, net username inst = NetResult.ok p →
      fetchFromInstance net username inst = LookupResult.success p inst) := by
  refine ⟨?_, ?_, ?_⟩
  · induction instances with
    | nil => rfl
    | cons i rest ih =>
      rw [List.map_cons, List.map_cons, ih]
      have hi : lookupInstance (fetchFromInstance net username i) = i := by
        cases hn : net username i <;> simp [fetchFromInstance, hn, lookupInstance]
      rw [hi]
  · intro inst e h
    rw [fetchFromInstance, h]
  · intro inst p h
    rw [fetchFromInstance, h]

/-- Witness for C4: a timed-out call is returned as a tagged failure, and the
fan-out over the three default instances yields results tagged
`mastodon.social`, `fosstodon.org`, `mstdn.social` in order. -/
theorem c4_fanout_results_witness :
    fetchFromInstance netTimeout "gargron" "mastodon.social" =
      LookupResult.failure errTimeout "mastodon.social" ∧
    (instances0.map (fetchFromInstance netTimeout "gargron")).map lookupInstance =
      instances0 :=
  ⟨(c4_fanout_results netTimeout "gargron" instances0).2.1 "mastodon.social" errTimeout rfl,
   (c4_fanout_results netTimeout "gargron" instances0).1⟩

/-!
## Claim C5
-/

/-- Claim C5: on a username-only lookup whose success partition is `ss`: if more
than one instance matched, the endpoint answers 200 with `{users, note}` where
`users` holds one formatted profile per success and every entry's
`estimation_confidence` is `"Medium (multiple instances found)"`; if exactly
one instance matched, the endpoint answers 200 with that single formatted
profile, whose confidence stays `"High (exact server timestamp)"`. -/
theorem c5_multi_and_single (net : Net) (env : Env) (instances : List String)
    (handle : String) (ss : List (RawProfile × String)) (p : RawProfile) (i : String)
    (hv : handleMatch handle = true)
    (hat : handle.data.contains '@' = false)
    (hss : (instances.map (fetchFromInstance net handle)).filterMap hasData = ss) :
    (1 < ss.length →
      apiMastodonHandler net env instances handle =
        (⟨200, ResponseBody.multiUsers (ss.map (mediumize env))
          ("Multiple accounts found for " ++ handle ++
            ". Use instance_used or profile_link to select the correct account.")⟩,
         instances.map fun j => (handle, j)) ∧
      ∀ u ∈ ss.map (mediumize env),
        u.estimation_confidence = "Medium (multiple instances found)") ∧
    (ss = [(p, i)] →
      apiMastodonHandler net env instances handle =
        (⟨200, ResponseBody.profile (processProfileData env p i)⟩,
         instances.map fun j => (handle, j)) ∧
      (processProfileData env p i).estimation_confidence =
        "High (exact server timestamp)") := by
  have hsplit := jsSplit_of_not_contains handle hat
  constructor
  · intro hlen
    have h0 : ¬ss.length = 0 := by omega
    constructor
    · rw [apiMastodonHandler, if_neg (by simp [hv])]
      rw [getMastodonProfile]
      simp only [hsplit, List.headD_cons, hat, Bool.false_eq_true, if_false, hss,
        if_neg h0, if_pos hlen]
    · intro u hu
      rcases List.mem_map.mp hu with ⟨pi, _, rfl⟩
      rfl
  · intro hss1
    rw [hss1] at hss
    constructor
    · rw [apiMastodonHandler, if_neg (by simp [hv])]
      rw [getMastodonProfile]
      simp only [hsplit, List.headD_cons, hat, Bool.false_eq_true, if_false, hss]
      rfl
    · rfl

/-- Witness for C5: with matches on two of the three default instances the
endpoint returns the two-entry `{users, note}` shape, every entry downgraded
to medium confidence; with a match on exactly one instance it returns the
single profile at high confidence. -/
theorem c5_multi_and_single_witness :
    (apiMastodonHandler netTwo env0 instances0 "gargron" =
      (⟨200, ResponseBody.multiUsers
          ([(gargron, "mastodon.social"), (gargron2, "fosstodon.org")].map (mediumize env0))
          ("Multiple accounts found for " ++ "gargron" ++
            ". Use instance_used or profile_link to select the correct account.")⟩,
       instances0.map fun j => ("gargron", j)) ∧
      ∀ u ∈ [(gargron, "mastodon.social"), (gargron2, "fosstodon.org")].map (mediumize env0),
        u.estimation_confidence = "Medium (multiple instances found)") ∧
    (apiMastodonHandler netOne env0 instances0 "gargron" =
      (⟨200, ResponseBody.profile (processProfileData env0 gargron "mastodon.social")⟩,
       instances0.map fun j => ("gargron", j)) ∧
      (processProfileData env0 gargron "mastodon.social").estimation_confidence =
        "High (exact server timestamp)") :=
  ⟨(c5_multi_and_single netTwo env0 instances0 "gargron"
      [(gargron, "mastodon.social"), (gargron2, "fosstodon.org")] gargron ""
      (by decide) (by decide) (by decide)).1 (by decide),
   (c5_multi_and_single netOne env0 instances0 "gargron"
      [(gargron, "mastodon.social")] gargron "mastodon.social"
      (by decide) (by decide) (by decide)).2 rfl⟩

/-!
## Claim C6
-/

/-- Claim C6, amended: for a full-handle lookup whose upstream call fails:
the multi-instance variant answers with the upstream status when one is
available and 404 otherwise (so transport/timeout errors and upstream 403
are NOT turned into 500/404 respectively), with a message naming the
instance tried; the single-instance variant answers 404 on upstream 404/403
and otherwise the upstream status when available (500 for transport errors),
with the upstream error message and detail passthrough. -/
theorem c6_upstream_error_mapping (net : Net) (env : Env) (instances : List String)
    (handle u inst : String) (e : AxiosError)
    (hv1 : handleMatch handle = true)
    (hv2 : handleMatchV2 handle = true)
    (hat : handle.data.contains '@' = true)
    (hsplit : jsSplit '@' handle = [u, inst])
    (hnet : net u inst = NetResult.err e) :
    (apiMastodonHandler net env instances handle).1 =
      ⟨(e.response.map AxiosErrResponse.status).getD 404,
        ResponseBody.errorMsg ("Mastodon account " ++ handle ++
          " not found, suspended, or instance " ++ inst ++ " unavailable")⟩ ∧
    (apiMastodonHandlerV2 net env handle).1 =
      (if e.response.map AxiosErrResponse.status = some 404 ∨
          e.response.map AxiosErrResponse.status = some 403 then
        ⟨404, ResponseBody.errorMsg ("Mastodon account " ++ handle ++
          " not found, suspended, or instance unavailable")⟩
      else
        ⟨(e.response.map AxiosErrResponse.status).getD 500,
          ResponseBody.errorDetails e.message
            ((e.response.map AxiosErrResponse.data).getD "No additional details")⟩) := by
  constructor
  · rw [apiMastodonHandler, if_neg (by simp [hv1])]
    rw [getMastodonProfile]
    simp only [hsplit, List.headD_cons, List.drop_succ_cons, List.drop_zero, hat, if_true,
      fetchFromInstance, hnet]
  · rw [apiMastodonHandlerV2, if_neg (by simp [hv2])]
    simp only [hat, if_true, hsplit, List.headD_cons, List.drop_succ_cons, List.drop_zero,
      hnet]
    by_cases hc : e.response.map AxiosErrResponse.status = some 404 ∨
        e.response.map AxiosErrResponse.status = some 403
    · rw [if_pos hc, if_pos hc]
    · rw [if_neg hc, if_neg hc]

/-- Witness for C6 (amended): an upstream 502 is surfaced as 502 by both
variants, with detail passthrough in the single-instance variant. -/
theorem c6_upstream_error_mapping_witness :
    (apiMastodonHandler net502 env0 instances0 "gargron@mastodon.social").1 =
      ⟨502, ResponseBody.errorMsg ("Mastodon account " ++ "gargron@mastodon.social" ++
        " not found, suspended, or instance " ++ "mastodon.social" ++ " unavailable")⟩ ∧
    (apiMastodonHandlerV2 net502 env0 "gargron@mastodon.social").1 =
      ⟨502, ResponseBody.errorDetails "Request failed with status code 502" "bad gateway"⟩ := by
  have h := c6_upstream_error_mapping net502 env0 instances0 "gargron@mastodon.social"
    "gargron" "mastodon.social" err502 (by decide) (by decide) (by decide) (by decide) rfl
  refine ⟨h.1, ?_⟩
  rw [h.2]
  decide

/-- Claim C6, counterexample: in the multi-instance variant, a full-handle
lookup failing with a transport/timeout error (no upstream status) is
answered 404 — not the HTTP 500 the claim requires — and an upstream 403 is
passed through as 403 rather than the claimed 404. -/
theorem c6_counterexample :
    (apiMastodonHandler netTimeout env0 instances0 "gargron@mastodon.social").1.status = 404 ∧
    (apiMastodonHandler netTimeout env0 instances0 "gargron@mastodon.social").1.status ≠ 500 ∧
    (apiMastodonHandler net403 env0 instances0 "gargron@mastodon.social").1.status = 403 := by
  decide

/-!
## Claims C8, C9, C10
-/

/-- Claim C8: the formatted `description` is the bio with every `<...>` tag
sequence removed by the global replace of `/<[^>]*>/g`; on the claim's
example `"<p>Hello <b>world</b></p>"` it yields `"Hello world"`, and HTML
entities and numeric character references pass through undecoded. -/
theorem c8_description_strips_tags :
    (∀ (env : Env) (p : RawProfile) (iu : String),
      (processProfileData env p iu).description = stripTags p.note) ∧
    stripTags "<p>Hello <b>world</b></p>" = "Hello world" ∧
    stripTags "&amp; &lt;tag&gt; &#10;" = "&amp; &lt;tag&gt; &#10;" :=
  ⟨fun _ _ _ => rfl, by decide, by decide⟩

/-- Claim C9: the `verified` label is `"Bot Account"` whenever the bot flag is
set — regardless of `locked` —, else `"Protected"` when locked, else
`"Standard"`. -/
theorem c9_verified_label (env : Env) (p : RawProfile) (iu : String) :
    (processProfileData env p iu).verified =
      (if p.bot then "Bot Account"
       else if p.locked then "Protected" else "Standard") := rfl

/-- Claim C10: the `followers` and `total_posts` fields are the decimal string
renderings (`toString`) of the numeric upstream counts — string-typed fields,
not JSON numbers. -/
theorem c10_counts_are_strings (env : Env) (p : RawProfile) (iu : String) :
    (processProfileData env p iu).followers = toString p.followers_count ∧
    (processProfileData env p iu).total_posts = toString p.statuses_count :=
  ⟨rfl, rfl⟩

end MastodonChecker
